import Mathlib

/-!
Shallow embedding of `src/translation_client/client.py` (class `TranslationClient`)
and of the concurrency-relevant parts of its async entry point.

Modelling conventions:
* An HTTP round trip of `requests.get` is abstracted as a `TransportEvent`
  oracle value; `_poll_status`'s successive `_get_status` calls consume a
  finite list of such events (the loop is driven by this list as fuel; if the
  list runs out while the loop would keep going the result is `PollRes.fuel`).
* `random.randint(1, 4)` is abstracted as a jitter stream `jitter : Nat → Nat`
  (the n-th call to `randint` returns `jitter n`); theorems that need the
  range add the hypothesis `1 ≤ jitter n ∧ jitter n ≤ 4`.
* Python dicts returned by the server / built by `_get_status` are a record
  `StatusDict` of the fields the client reads (`.get` of a missing key is the
  default value: `error := false`, `result := none`, ...).
* Exceptions are explicit: `_get_status` returns `Except PyExn StatusDict`.
  In CPython, the `requests.ConnectionError` and `ValueError` handlers of
  `_get_status` execute `curr_interval += min(...)` on a local `curr_interval`
  that is never bound in that scope, which raises `UnboundLocalError`; an
  exception raised inside an `except` block is NOT caught by the sibling
  `except Exception` clause of the same `try`, so it propagates to the caller.
* `time.sleep` durations are collected in a trace (`sleeps`), and the number
  of `_get_status` calls in `fetches`.
* The instance state (`self.*`) is a `ClientState` threaded through the
  functions; `self._stop_event.is_set()` is a pure read (the source calls
  `is_set()`, not `set()`, on the terminal branches of `_poll_status`).
-/

namespace TranslationClient

/-- The fields of the JSON dict that the client reads, with the value
`dict.get(key)` yields when the key is absent. -/
structure StatusDict where
  error : Bool := false
  retry_with_backoff : Bool := false
  result : Option String := none
  message : Option String := none
deriving DecidableEq

/-- Outcome of one `requests.get(f"{base_url}/status")` round trip, as seen by
the `try/except` ladder of `_get_status`. -/
inductive TransportEvent where
  /-- A 2xx response whose body parses as JSON into `body`. -/
  | ok2xx (body : StatusDict)
  /-- The request raised `requests.Timeout`. -/
  | timeout
  /-- The request raised `requests.ConnectionError`. -/
  | connectionError
  /-- A 2xx response whose body is not JSON: `response.json()` raises `ValueError`. -/
  | malformedBody
  /-- non-2xx status: `response.raise_for_status()` raises `requests.HTTPError`. -/
  | httpError
  /-- any other exception from the request. -/
  | otherExn
deriving DecidableEq

/-- Python exceptions that can escape the embedded code. -/
inductive PyExn where
  /-- Python `UnboundLocalError`: local variable referenced before assignment. -/
  | unboundLocalError
deriving DecidableEq

/-- The message string `_get_status` puts in every error dict. -/
def errMsg : String := "An unexpected error occured. Please try again later"

/-- Embedding of `TranslationClient._get_status`.  Each arm transcribes one `except` clause.
The `ConnectionError` and `ValueError` arms raise: their bodies execute
`curr_interval += min(self.backoff_factor * curr_interval, self.max_interval)`
with `curr_interval` unbound in `_get_status`, which raises
`UnboundLocalError` before the `return` statement is reached, and that
exception propagates out of the whole `try` statement. -/
def get_status : TransportEvent → Except PyExn StatusDict
  | .ok2xx body => .ok body
  | .timeout => .ok { error := true, retry_with_backoff := true, message := some errMsg }
  | .connectionError => .error .unboundLocalError
  | .malformedBody => .error .unboundLocalError
  | .httpError => .ok { error := true, retry_with_backoff := false, message := some errMsg }
  | .otherExn => .ok { error := true, retry_with_backoff := false, message := some errMsg }

/-- The instance attributes set by `TranslationClient.__init__` (defaults are
the constructor's hard-coded values; `max_retries = none` models
`float("inf")`), plus the thread-management state: `stop_event` is
`_stop_event.is_set()` and `current_thread` is `None` or
`some (thread.is_alive())`. -/
structure ClientState where
  base_url : String := "http://localhost:5000"
  initial_polling_interval : Nat := 1
  max_retries : Option Nat := none
  backoff_factor : Nat := 2
  max_interval : Nat := 30
  stop_event : Bool := false
  current_thread : Option Bool := none
deriving DecidableEq

/-- The loop guard `retries < self.max_retries`; with `max_retries =
float("inf")` (`none`) it is always true. -/
def retriesLt (st : ClientState) (retries : Nat) : Bool :=
  match st.max_retries with
  | none => true
  | some m => retries < m

/-- A value returned by `_poll_status`: either
`{"task_completion_status": s}` or `{"error": e, "message": m}`. -/
inductive PollDict where
  | status (task_completion_status : String)
  | clientError (error : Bool) (message : Option String)
deriving DecidableEq

/-- How a `_poll_status` run ends: a returned dict, a propagated exception,
or the transport-event fuel ran out while the loop was still going. -/
inductive PollRes where
  | done (d : PollDict)
  | exn (e : PyExn)
  | fuel
deriving DecidableEq

/-- What one iteration of `_poll_status` does with a successfully returned
dict: return from the loop (`stop`), or fall through to the sleep
(`next`, with `backoff := true` iff the retryable-error branch ran and
escalated `curr_interval` first). -/
inductive StepClass where
  | stop (r : PollRes)
  | next (backoff : Bool)
deriving DecidableEq

/-- The `if not response.get("error") ... else ...` ladder in the body of
`_poll_status`'s `while` loop.  The `completed` and `error` branches also
call `self._stop_event.is_set()`, a pure read with no effect on the state,
so it does not appear here. -/
def classify (d : StatusDict) : StepClass :=
  if d.error = false then
    if d.result = some "completed" then .stop (.done (.status "completed"))
    else if d.result = some "error" then .stop (.done (.status "error"))
    else if d.result = some "pending" then .next false
    else .stop (.done (.status "error"))
  else
    if d.retry_with_backoff = false then .stop (.done (.clientError d.error d.message))
    else .next true

/-- Everything observable about a `_poll_status` run. -/
structure LoopOut where
  res : PollRes
  sleeps : List Nat
  fetches : Nat
  final : ClientState
deriving DecidableEq

/-- The `while retries < self.max_retries` loop of `_poll_status`, with
explicit loop state: remaining transport events, `retries`, `curr_interval`,
and the index into the jitter stream.  Each iteration: check the guard,
fetch, classify; on fall-through compute the sleep duration
(`curr_interval` for pending, `curr_interval + min(backoff_factor *
curr_interval, max_interval)` for a retryable error, matching the `+=`),
sleep, reset `curr_interval = initial_polling_interval + randint(1, 4)`,
increment `retries`. -/
def pollLoop (st : ClientState) (jitter : Nat → Nat) :
    List TransportEvent → Nat → Nat → Nat → LoopOut
  | [], retries, _, _ =>
    if retriesLt st retries then ⟨.fuel, [], 0, st⟩
    else ⟨.done (.status "pending"), [], 0, st⟩
  | ev :: rest, retries, curr, j =>
    if retriesLt st retries then
      match get_status ev with
      | .error e => ⟨.exn e, [], 1, st⟩
      | .ok d =>
        match classify d with
        | .stop r => ⟨r, [], 1, st⟩
        | .next backoff =>
          let slp := if backoff then curr + min (st.backoff_factor * curr) st.max_interval
                     else curr
          let out := pollLoop st jitter rest (retries + 1)
              (st.initial_polling_interval + jitter j) (j + 1)
          ⟨out.res, slp :: out.sleeps, out.fetches + 1, out.final⟩
    else ⟨.done (.status "pending"), [], 0, st⟩

/-- Embedding of `TranslationClient._poll_status`: run the loop from `retries = 0`,
`curr_interval = self.initial_polling_interval`. -/
def poll_status (st : ClientState) (jitter : Nat → Nat)
    (evs : List TransportEvent) : LoopOut :=
  pollLoop st jitter evs 0 st.initial_polling_interval 0

/-- Embedding of `TranslationClient.wait_for_completion`: runs `_poll_status` on the
calling thread and returns its result. -/
def wait_for_completion (st : ClientState) (jitter : Nat → Nat)
    (evs : List TransportEvent) : LoopOut :=
  poll_status st jitter evs

/-- The transport event for a 2xx `{"result": "pending"}` body. -/
def pendingEv : TransportEvent := .ok2xx { result := some "pending" }

/-- The test `current_thread and current_thread.is_alive()`. -/
def threadAlive (st : ClientState) : Bool :=
  match st.current_thread with
  | some alive => alive
  | none => false

/-- Everything observable about the synchronous part of a
`check_status_async` call: the returned dict (or propagated exception),
whether a background thread was started, and the instance state when the
call returns. -/
structure AsyncOut where
  ret : Except PyExn PollDict
  threadStarted : Bool
  final : ClientState

/-- Embedding of `TranslationClient.check_status_async` (its synchronous body; the spawned
thread runs `_async_poll`, modelled separately).  Statement by statement:
if the previous thread is alive, `self._stop_event.set()`; one `_get_status`
call (an exception from it propagates); if `error` is truthy and
`retry_with_backoff` falsy, return the error dict; if `result` is
`"completed"` or `"error"`, return it; otherwise `self._stop_event.clear()`,
start a thread running `_async_poll(callback)`, and return pending. -/
def check_status_async (st : ClientState) (ev : TransportEvent) : AsyncOut :=
  let st1 := if threadAlive st then { st with stop_event := true } else st
  match get_status ev with
  | .error e => ⟨.error e, false, st1⟩
  | .ok d =>
    if d.error && !d.retry_with_backoff then
      ⟨.ok (.clientError d.error d.message), false, st1⟩
    else if d.result = some "completed" then ⟨.ok (.status "completed"), false, st1⟩
    else if d.result = some "error" then ⟨.ok (.status "error"), false, st1⟩
    else
      ⟨.ok (.status "pending"), true,
        { st1 with stop_event := false, current_thread := some true }⟩

/-!
Interleaving model for the supersession race (C1).

Scenario from the spec: a first `check_status_async` call has started a
background thread T1 (clearing `_stop_event` on the way), T1's
`_poll_status` is still running, and a second `check_status_async` call
(call2) arrives and takes its pending path.  The statements of the source
that touch shared state are the atomic actions:

* `c2Set`   — call2's `self._stop_event.set()` (previous thread alive);
* `c2Clear` — call2's `self._stop_event.clear()` (the fetch between the
  two touches no shared state and is elided);
* `c2Spawn` — call2's `threading.Thread(...).start()` of T2;
* `t1Check` — T1's `_async_poll` tail: `if not self._stop_event.is_set():
  callback(result)` — fires `cb1` iff the shared event is clear;
* `t2Check` — the same tail for T2 — fires `cb2` iff the event is clear
  (only possible once T2 has been spawned).

Both threads read the SAME `threading.Event` of the one client instance.
A schedule is any interleaving respecting each thread's program order:
`c2Set < c2Clear < c2Spawn` and `c2Spawn < t2Check` (`t1Check` can occur
anywhere, as T1's poll finishes at an arbitrary time). -/

/-- Atomic shared-state actions of the two-call scenario. -/
inductive Act where
  | c2Set
  | c2Clear
  | c2Spawn
  | t1Check
  | t2Check
deriving DecidableEq

/-- Shared state: the one `_stop_event` of the client, whether T2 has been
spawned, and which callbacks have fired. -/
structure RaceState where
  stop : Bool
  spawned : Bool
  cb1 : Bool
  cb2 : Bool
deriving DecidableEq

/-- Effect of one atomic action, transcribed from the statements listed
above. -/
def raceStep (s : RaceState) : Act → RaceState
  | .c2Set => { s with stop := true }
  | .c2Clear => { s with stop := false }
  | .c2Spawn => { s with spawned := true }
  | .t1Check => if s.stop then s else { s with cb1 := true }
  | .t2Check => if s.spawned && !s.stop then { s with cb2 := true } else s

/-- State at the moment call2 arrives: the first call cleared the event
before spawning T1, no T2 yet, no callback fired yet. -/
def raceStart : RaceState := ⟨false, false, false, false⟩

/-- Run a schedule. -/
def raceRun (sched : List Act) : RaceState := sched.foldl raceStep raceStart

/-- A schedule is an interleaving of the scenario: every action occurs
exactly once, call2's actions in program order, and T2's check after its
spawn. -/
def validSched (sched : List Act) : Bool :=
  sched.count .c2Set = 1 && sched.count .c2Clear = 1 && sched.count .c2Spawn = 1 &&
  sched.count .t1Check = 1 && sched.count .t2Check = 1 &&
  decide (sched.indexOf .c2Set < sched.indexOf .c2Clear) &&
  decide (sched.indexOf .c2Clear < sched.indexOf .c2Spawn) &&
  decide (sched.indexOf .c2Spawn < sched.indexOf .t2Check)

/-- The schedule in which T1's poll finishes only after call2 has cleared
the shared event and spawned T2 — nothing in the source prevents it. -/
def staleSched : List Act := [.c2Set, .c2Clear, .c2Spawn, .t1Check, .t2Check]

/-- The client as `__init__` builds it. -/
def defaultClient : ClientState := {}

/-- The body `{"result": "pending"}`. -/
def pendingBody : StatusDict := { result := some "pending" }

/-- The body `{"result": "completed"}`. -/
def completedBody : StatusDict := { result := some "completed" }

/-- A well-formed 2xx body with an unrecognized result value. -/
def unknownBody : StatusDict := { result := some "unknown" }

/-- A client whose `current_thread` is alive. -/
def aliveClient : ClientState := { current_thread := some true }

lemma get_status_pendingEv : get_status pendingEv = .ok pendingBody := rfl

lemma classify_pendingBody : classify pendingBody = .next false := by decide

lemma pollLoop_final (st : ClientState) (jitter : Nat → Nat) :
    ∀ evs r c j, (pollLoop st jitter evs r c j).final = st := by
  intro evs
  induction evs with
  | nil =>
    intro r c j
    by_cases hg : retriesLt st r = true <;> simp [pollLoop, hg]
  | cons e rest ih =>
    intro r c j
    by_cases hg : retriesLt st r = true
    · rcases hge : get_status e with x | d
      · simp [pollLoop, hg, hge]
      · rcases hcl : classify d with r' | b
        · simp [pollLoop, hg, hge, hcl]
        · simp [pollLoop, hg, hge, hcl, ih]
    · simp [pollLoop, hg]

lemma pollLoop_replicate_pending (st : ClientState) (jitter : Nat → Nat) (M : Nat)
    (h : st.max_retries = some M) :
    ∀ n r c j rest, r + n = M →
      (pollLoop st jitter (List.replicate n pendingEv ++ rest) r c j).res
          = .done (.status "pending") ∧
      (pollLoop st jitter (List.replicate n pendingEv ++ rest) r c j).fetches = n := by
  intro n
  induction n with
  | zero =>
    intro r c j rest hr
    have hg : ¬ retriesLt st r = true := by
      simp [retriesLt, h]; omega
    cases rest with
    | nil => simp [pollLoop, hg]
    | cons e es => simp [pollLoop, hg]
  | succ n ih =>
    intro r c j rest hr
    have hg : retriesLt st r = true := by
      simp [retriesLt, h]; omega
    have hstep := ih (r + 1) (st.initial_polling_interval + jitter j) (j + 1) rest
      (by omega)
    simp only [List.replicate_succ, List.cons_append, pollLoop, hg, if_true,
      get_status_pendingEv, classify_pendingBody]
    exact ⟨hstep.1, by simp [hstep.2]⟩

/-- C1: in the two-call supersession scenario there is a schedule, allowed
by the source's thread interleavings, on which BOTH callbacks fire: call2
sets the shared stop event, clears it again, and spawns T2 before T1's
poll finishes, so T1's cancellation check sees a cleared event and invokes
the first callback, and T2 later invokes the second — refuting "exactly one
callback invocation overall" and "at most one uncancelled background
execution". -/
theorem c1_stale_callback_fires :
    validSched staleSched = true ∧
    (raceRun staleSched).cb1 = true ∧ (raceRun staleSched).cb2 = true := by
  decide

/-- C2: on a connection failure or a 2xx response with a non-JSON body,
`_get_status` does NOT return a retryable outcome: its handler trips over
the unbound local `curr_interval` and an `UnboundLocalError` propagates to
the caller.  Only the timeout handler returns the claimed retryable dict. -/
theorem c2_get_status_raises :
    get_status .connectionError = .error .unboundLocalError ∧
    get_status .malformedBody = .error .unboundLocalError ∧
    get_status .timeout
      = .ok { error := true, retry_with_backoff := true, message := some errMsg } :=
  ⟨rfl, rfl, rfl⟩

/-- C3: with the constructor's configuration (I0 = 1, factor 2, cap 30) and
jitter constantly 1, two consecutive timeouts make the loop sleep 3 then 6 —
not min(2^1·1, 30) = 2 then min(2^2·1, 30) = 4 as claimed: each retryable
failure ADDS min(factor·current, cap) to the current interval instead of
multiplying, and the interval is reset to I0 + jitter after every
iteration, so no escalation persists. -/
theorem c3_backoff_divergence :
    (poll_status defaultClient (fun _ => 1) [.timeout, .timeout]).sleeps = [3, 6] ∧
    min (2 ^ 1 * 1) 30 = 2 ∧ min (2 ^ 2 * 1) 30 = 4 := by
  decide

/-- C4 counterexample: with maxRetries = 1 and an all-pending outcome
sequence, the loop makes exactly 1 Fetcher call, not 1 + 1 = 2. -/
theorem c4_counterexample :
    (poll_status { max_retries := some 1 } (fun _ => 1)
        [pendingEv, pendingEv]).fetches = 1 ∧
    (1 : Nat) ≠ 1 + 1 := by
  decide

/-- C4 amended: for every finite maxRetries value M and every all-Pending
fetch-outcome sequence, the polling loop calls the Status Fetcher exactly M
times (each iteration counts against the retry budget, including the
first) and then returns a Pending result, not an error. -/
theorem c4_retry_budget (M : Nat) (jitter : Nat → Nat) (rest : List TransportEvent) :
    (poll_status { max_retries := some M } jitter
        (List.replicate M pendingEv ++ rest)).res = .done (.status "pending") ∧
    (poll_status { max_retries := some M } jitter
        (List.replicate M pendingEv ++ rest)).fetches = M := by
  exact pollLoop_replicate_pending _ jitter M rfl M 0 _ 0 rest (by omega)

/-- C9: `wait_for_completion` leaves the whole instance state unchanged for
every fetch-outcome sequence: every exit of `_poll_status` returns the
state it was given (its `_stop_event.is_set()` calls are pure reads), so
`base_url`, the polling configuration, `current_thread` and the stop event
are identical before and after the call. -/
theorem c9_wait_frame (st : ClientState) (jitter : Nat → Nat)
    (evs : List TransportEvent) :
    (wait_for_completion st jitter evs).final = st :=
  pollLoop_final st jitter evs 0 st.initial_polling_interval 0

/-- A transport event on which the loop iteration falls through to the
sleep instead of returning: the fetch returns a dict (no exception) and the
dict classifies as pending or as a retryable error. -/
def nonTerminalEv (ev : TransportEvent) : Bool :=
  match get_status ev with
  | .error _ => false
  | .ok d =>
    match classify d with
    | .stop _ => false
    | .next _ => true

lemma get_status_httpError :
    get_status .httpError
      = .ok { error := true, retry_with_backoff := false, message := some errMsg } :=
  rfl

lemma classify_httpErrorBody :
    classify { error := true, retry_with_backoff := false, message := some errMsg }
      = .stop (.done (.clientError true (some errMsg))) := by
  decide

lemma pollLoop_nonTerminal_then_httpError (st : ClientState) (jitter : Nat → Nat)
    (h : st.max_retries = none) :
    ∀ pre : List TransportEvent, pre.all nonTerminalEv = true →
    ∀ r c j rest,
      (pollLoop st jitter (pre ++ .httpError :: rest) r c j).res
          = .done (.clientError true (some errMsg)) ∧
      (pollLoop st jitter (pre ++ .httpError :: rest) r c j).fetches
          = pre.length + 1 := by
  intro pre
  induction pre with
  | nil =>
    intro _ r c j rest
    have hg : retriesLt st r = true := by simp [retriesLt, h]
    simp [pollLoop, hg, get_status_httpError, classify_httpErrorBody]
  | cons e pre ih =>
    intro hall r c j rest
    rw [List.all_cons, Bool.and_eq_true] at hall
    have hg : retriesLt st r = true := by simp [retriesLt, h]
    rcases hge : get_status e with x | d
    · simp [nonTerminalEv, hge] at hall
    · rcases hcl : classify d with r' | b
      · simp [nonTerminalEv, hge, hcl] at hall
      · have hstep := ih hall.2 (r + 1) (st.initial_polling_interval + jitter j)
          (j + 1) rest
        simp only [List.cons_append, pollLoop, hg, if_true, hge, hcl]
        exact ⟨hstep.1, by simp [hstep.2]⟩

/-- C5: whenever a Status Fetcher call observes a non-2xx HTTP status, the
outcome dict is non-retryable, the loop (run with the constructor's
unbounded retries, after any number of fall-through iterations) makes no
further Fetcher calls, and the caller receives the error dict carrying a
message. -/
theorem c5_http_error_definitive (st : ClientState) (jitter : Nat → Nat)
    (pre rest : List TransportEvent)
    (hmr : st.max_retries = none) (hpre : pre.all nonTerminalEv = true) :
    get_status .httpError
      = .ok { error := true, retry_with_backoff := false, message := some errMsg } ∧
    (poll_status st jitter (pre ++ .httpError :: rest)).res
      = .done (.clientError true (some errMsg)) ∧
    (poll_status st jitter (pre ++ .httpError :: rest)).fetches
      = pre.length + 1 := by
  refine ⟨rfl, ?_, ?_⟩
  · exact (pollLoop_nonTerminal_then_httpError st jitter hmr pre hpre 0
      st.initial_polling_interval 0 rest).1
  · exact (pollLoop_nonTerminal_then_httpError st jitter hmr pre hpre 0
      st.initial_polling_interval 0 rest).2

theorem c5_http_error_definitive_witness :
    defaultClient.max_retries = none ∧
    [pendingEv, TransportEvent.timeout].all nonTerminalEv = true ∧
    (poll_status defaultClient (fun _ => 1)
        ([pendingEv, TransportEvent.timeout] ++ TransportEvent.httpError :: [])).res
      = .done (.clientError true (some errMsg)) ∧
    (poll_status defaultClient (fun _ => 1)
        ([pendingEv, TransportEvent.timeout] ++ TransportEvent.httpError :: [])).fetches
      = 3 :=
  ⟨rfl, by decide,
    (c5_http_error_definitive defaultClient (fun _ => 1)
      [pendingEv, .timeout] [] rfl (by decide)).2.1,
    (c5_http_error_definitive defaultClient (fun _ => 1)
      [pendingEv, .timeout] [] rfl (by decide)).2.2⟩

/-- C6 counterexample: on a well-formed 2xx response with the unrecognized
result value "unknown", `check_status_async` does NOT surface a definitive
error: it returns the pending dict and starts a background thread. -/
theorem c6_counterexample :
    (check_status_async defaultClient (.ok2xx unknownBody)).threadStarted = true ∧
    (check_status_async defaultClient (.ok2xx unknownBody)).ret
      = .ok (.status "pending") :=
  ⟨rfl, rfl⟩

/-- C6 amended: on a well-formed 2xx response whose result value is not
completed/error/pending, `wait_for_completion`'s loop returns the error
dict with no further Fetcher calls, but `check_status_async` does not
surface it: it treats the value as non-terminal, clears the stop event,
starts a background execution and returns pending. -/
theorem c6_unrecognized_result (st : ClientState) (jitter : Nat → Nat)
    (body : StatusDict) (s : String) (rest : List TransportEvent)
    (hb : body.error = false) (hr : body.result = some s)
    (h1 : s ≠ "completed") (h2 : s ≠ "error") (h3 : s ≠ "pending")
    (hg : retriesLt st 0 = true) :
    (poll_status st jitter (.ok2xx body :: rest)).res = .done (.status "error") ∧
    (poll_status st jitter (.ok2xx body :: rest)).fetches = 1 ∧
    (check_status_async st (.ok2xx body)).threadStarted = true ∧
    (check_status_async st (.ok2xx body)).ret = .ok (.status "pending") ∧
    (check_status_async st (.ok2xx body)).final.stop_event = false := by
  have hc : classify body = .stop (.done (.status "error")) := by
    simp [classify, hb, hr, h1, h2, h3]
  have hgs : get_status (.ok2xx body) = .ok body := rfl
  refine ⟨?_, ?_, ?_⟩
  · simp [poll_status, pollLoop, hg, hgs, hc]
  · simp [poll_status, pollLoop, hg, hgs, hc]
  · cases hal : threadAlive st <;>
      simp [check_status_async, hgs, hal, hb, hr, h1, h2]

theorem c6_unrecognized_result_witness :
    unknownBody.error = false ∧ unknownBody.result = some "unknown" ∧
    retriesLt defaultClient 0 = true ∧
    (poll_status defaultClient (fun _ => 1) [.ok2xx unknownBody]).res
      = .done (.status "error") ∧
    (check_status_async defaultClient (.ok2xx unknownBody)).threadStarted = true :=
  ⟨rfl, rfl, rfl,
    (c6_unrecognized_result defaultClient (fun _ => 1) unknownBody "unknown" []
      rfl rfl (by decide) (by decide) (by decide) rfl).1,
    (c6_unrecognized_result defaultClient (fun _ => 1) unknownBody "unknown" []
      rfl rfl (by decide) (by decide) (by decide) rfl).2.2.1⟩

lemma classify_pending_of (body : StatusDict) (hb : body.error = false)
    (hr : body.result = some "pending") : classify body = .next false := by
  simp [classify, hb, hr]

lemma pollLoop_sleeps_head (st : ClientState) (jitter : Nat → Nat)
    (body : StatusDict) (hb : body.error = false) (hr : body.result = some "pending")
    (rest : List TransportEvent) (r c j : Nat) (hg : retriesLt st r = true) :
    (pollLoop st jitter (.ok2xx body :: rest) r c j).sleeps.get? 0 = some c := by
  have hc := classify_pending_of body hb hr
  have hgs : get_status (.ok2xx body) = .ok body := rfl
  simp [pollLoop, hg, hgs, hc]

lemma pollLoop_sleeps_ne_nil (st : ClientState) (jitter : Nat → Nat)
    (e0 : TransportEvent) (rest : List TransportEvent) (r c j : Nat)
    (hlen : (pollLoop st jitter (e0 :: rest) r c j).sleeps ≠ []) :
    retriesLt st r = true ∧
    ∃ d b, get_status e0 = .ok d ∧ classify d = .next b ∧
      pollLoop st jitter (e0 :: rest) r c j =
        ⟨(pollLoop st jitter rest (r + 1)
            (st.initial_polling_interval + jitter j) (j + 1)).res,
         (if b then c + min (st.backoff_factor * c) st.max_interval else c) ::
           (pollLoop st jitter rest (r + 1)
             (st.initial_polling_interval + jitter j) (j + 1)).sleeps,
         (pollLoop st jitter rest (r + 1)
           (st.initial_polling_interval + jitter j) (j + 1)).fetches + 1,
         (pollLoop st jitter rest (r + 1)
           (st.initial_polling_interval + jitter j) (j + 1)).final⟩ := by
  by_cases hg : retriesLt st r = true
  · refine ⟨hg, ?_⟩
    rcases hge : get_status e0 with x | d
    · exact absurd (by simp [pollLoop, hg, hge]) hlen
    · rcases hcl : classify d with r' | b
      · exact absurd (by simp [pollLoop, hg, hge, hcl]) hlen
      · refine ⟨d, b, rfl, hcl, ?_⟩
        simp [pollLoop, hg, hge, hcl]
  · exact absurd (by simp [pollLoop, hg]) hlen

lemma pollLoop_sleeps_succ (st : ClientState) (jitter : Nat → Nat)
    (body : StatusDict) (hb : body.error = false)
    (hr : body.result = some "pending") :
    ∀ n evs r c j,
      evs.get? (n + 1) = some (.ok2xx body) →
      n + 1 < (pollLoop st jitter evs r c j).sleeps.length →
      (pollLoop st jitter evs r c j).sleeps.get? (n + 1)
        = some (st.initial_polling_interval + jitter (j + n)) := by
  intro n
  induction n with
  | zero =>
    intro evs r c j hev hlen
    cases evs with
    | nil => simp at hev
    | cons e0 rest =>
      have hne : (pollLoop st jitter (e0 :: rest) r c j).sleeps ≠ [] := by
        intro hnil; rw [hnil] at hlen; simp at hlen
      obtain ⟨hg, d, b, hge, hcl, heq⟩ :=
        pollLoop_sleeps_ne_nil st jitter e0 rest r c j hne
      rw [heq] at hlen
      simp at hlen
      have hne2 : (pollLoop st jitter rest (r + 1)
          (st.initial_polling_interval + jitter j) (j + 1)).sleeps ≠ [] := by
        intro hnil
        rw [hnil] at hlen
        simp at hlen
      cases rest with
      | nil => simp at hev
      | cons e1 rest' =>
        have he1 : e1 = .ok2xx body := by simpa using hev
        subst he1
        have hg2 := (pollLoop_sleeps_ne_nil st jitter (.ok2xx body) rest' (r + 1)
          (st.initial_polling_interval + jitter j) (j + 1) hne2).1
        have hhead := pollLoop_sleeps_head st jitter body hb hr rest' (r + 1)
          (st.initial_polling_interval + jitter j) (j + 1) hg2
        rw [heq]
        simpa using hhead
  | succ n ih =>
    intro evs r c j hev hlen
    cases evs with
    | nil => simp at hev
    | cons e0 rest =>
      have hne : (pollLoop st jitter (e0 :: rest) r c j).sleeps ≠ [] := by
        intro hnil; rw [hnil] at hlen; simp at hlen
      obtain ⟨hg, d, b, hge, hcl, heq⟩ :=
        pollLoop_sleeps_ne_nil st jitter e0 rest r c j hne
      have hev' : rest.get? (n + 1) = some (.ok2xx body) := by simpa using hev
      have hlen' : n + 1 <
          (pollLoop st jitter rest (r + 1)
            (st.initial_polling_interval + jitter j) (j + 1)).sleeps.length := by
        rw [heq] at hlen
        simpa using hlen
      have := ih rest (r + 1) (st.initial_polling_interval + jitter j) (j + 1)
        hev' hlen'
      rw [heq]
      have harith : j + 1 + n = j + (n + 1) := by omega
      rw [harith] at this
      simpa using this

/-- C7 counterexample: with the constructor's I0 = 1, the sleep of the very
first iteration on a Pending classification is exactly 1, outside the
claimed range [I0 + 1, I0 + 4] = [2, 5]. -/
theorem c7_counterexample :
    (poll_status defaultClient (fun _ => 1) [pendingEv]).sleeps = [1] ∧
    ¬ defaultClient.initial_polling_interval + 1 ≤ 1 := by
  decide

/-- C7 amended: the sleep of a Pending iteration is the current interval,
which is exactly I0 on the first iteration (no jitter), and
I0 + uniformRandom(1, 4) — a value in [I0 + 1, I0 + 4] — on every later
iteration, independent of any prior backoff escalation, because the
interval is reset to I0 + jitter at the end of every iteration. -/
theorem c7_pending_sleep (st : ClientState) (jitter : Nat → Nat)
    (evs : List TransportEvent) (body : StatusDict) (n : Nat)
    (hb : body.error = false) (hr : body.result = some "pending")
    (hj : ∀ i, 1 ≤ jitter i ∧ jitter i ≤ 4)
    (hev : evs.get? n = some (.ok2xx body))
    (hlen : n < (poll_status st jitter evs).sleeps.length) :
    (n = 0 → (poll_status st jitter evs).sleeps.get? n
        = some st.initial_polling_interval) ∧
    (∀ m, n = m + 1 →
      (poll_status st jitter evs).sleeps.get? n
          = some (st.initial_polling_interval + jitter m) ∧
      st.initial_polling_interval + 1 ≤ st.initial_polling_interval + jitter m ∧
      st.initial_polling_interval + jitter m ≤ st.initial_polling_interval + 4) := by
  simp only [poll_status] at hlen ⊢
  constructor
  · intro h0
    subst h0
    cases evs with
    | nil => simp at hev
    | cons e0 rest =>
      have hne : (pollLoop st jitter (e0 :: rest) 0
          st.initial_polling_interval 0).sleeps ≠ [] := by
        intro hnil; rw [hnil] at hlen; simp at hlen
      have hg := (pollLoop_sleeps_ne_nil st jitter e0 rest 0
        st.initial_polling_interval 0 hne).1
      have he0 : e0 = .ok2xx body := by simpa using hev
      subst he0
      exact pollLoop_sleeps_head st jitter body hb hr rest 0
        st.initial_polling_interval 0 hg
  · intro m hm
    subst hm
    have hget := pollLoop_sleeps_succ st jitter body hb hr m evs 0
      st.initial_polling_interval 0 hev hlen
    refine ⟨by simpa using hget, ?_, ?_⟩
    · have := (hj m).1; omega
    · have := (hj m).2; omega

theorem c7_pending_sleep_witness :
    [pendingEv, pendingEv, pendingEv].get? 1 = some (.ok2xx pendingBody) ∧
    1 < (poll_status defaultClient (fun _ => 2)
        [pendingEv, pendingEv, pendingEv]).sleeps.length ∧
    (poll_status defaultClient (fun _ => 2)
        [pendingEv, pendingEv, pendingEv]).sleeps.get? 1 = some 3 :=
  ⟨rfl, by decide,
    ((c7_pending_sleep defaultClient (fun _ => 2) [pendingEv, pendingEv, pendingEv]
        pendingBody 1 rfl rfl (fun _ => ⟨by norm_num, by norm_num⟩) rfl
        (by decide)).2 0 rfl).1⟩

/-- C8: if the immediate Fetcher call of `check_status_async` yields a
well-formed terminal result (completed or error), the call returns that
result synchronously, starts no background thread, leaves `current_thread`
untouched, and — since the callback is only ever invoked by the spawned
thread's `_async_poll` — the supplied callback is never invoked for this
call. -/
theorem c8_immediate_terminal (st : ClientState) (body : StatusDict) (s : String)
    (hb : body.error = false) (hs : body.result = some s)
    (hterm : s = "completed" ∨ s = "error") :
    (check_status_async st (.ok2xx body)).ret = .ok (.status s) ∧
    (check_status_async st (.ok2xx body)).threadStarted = false ∧
    (check_status_async st (.ok2xx body)).final.current_thread
      = st.current_thread := by
  have hgs : get_status (.ok2xx body) = .ok body := rfl
  rcases hterm with h | h <;> subst h <;> cases hal : threadAlive st <;>
    simp [check_status_async, hgs, hal, hb, hs]

theorem c8_immediate_terminal_witness :
    completedBody.error = false ∧ completedBody.result = some "completed" ∧
    (check_status_async defaultClient (.ok2xx completedBody)).ret
      = .ok (.status "completed") ∧
    (check_status_async defaultClient (.ok2xx completedBody)).threadStarted
      = false :=
  ⟨rfl, rfl,
    (c8_immediate_terminal defaultClient completedBody "completed" rfl rfl
      (Or.inl rfl)).1,
    (c8_immediate_terminal defaultClient completedBody "completed" rfl rfl
      (Or.inl rfl)).2.1⟩

/-- C10: when the previous background thread is alive, `check_status_async`
sets the shared stop event as its first statement, so on every branch that
does not start a new thread (propagated exception, non-retryable error
dict, terminal result) the event is left set, and it is cleared exactly on
the branch that starts the new background thread. -/
theorem c10_stop_event_discipline (st : ClientState) (ev : TransportEvent)
    (h : threadAlive st = true) :
    ((check_status_async st ev).threadStarted = false →
      (check_status_async st ev).final.stop_event = true) ∧
    ((check_status_async st ev).threadStarted = true →
      (check_status_async st ev).final.stop_event = false) := by
  rcases hge : get_status ev with e | d
  · simp [check_status_async, hge, h]
  · by_cases h1 : (d.error && !d.retry_with_backoff) = true
    · simp [check_status_async, hge, h, h1]
    · by_cases h2 : d.result = some "completed"
      · simp [check_status_async, hge, h, h1, h2]
      · by_cases h3 : d.result = some "error"
        · simp [check_status_async, hge, h, h1, h2, h3]
        · simp [check_status_async, hge, h, h1, h2, h3]

theorem c10_stop_event_discipline_witness :
    threadAlive aliveClient = true ∧
    ((check_status_async aliveClient .httpError).threadStarted = false →
      (check_status_async aliveClient .httpError).final.stop_event = true) ∧
    (check_status_async aliveClient .httpError).threadStarted = false :=
  ⟨rfl, (c10_stop_event_discipline aliveClient .httpError rfl).1, rfl⟩

end TranslationClient
